import Mathlib

/-!
Shallow embedding of the Music Player API backend, src/backend/server.py.

Conventions of the embedding:
* The document store (MongoDB reached through the motor driver) is a
  `Store` of six lists, one per collection, kept in natural (insertion)
  order.  `find_one(q)` is `List.find?`, `find(q).to_list(1000)` is
  `List.filter` followed by `List.take 1000`, `insert_one` appends,
  `update_one` with a `$set` document rewrites the first matching
  document in place, and `delete_many` with an empty query empties the
  collection.
* `datetime.utcnow()` is modelled by an explicit `now : Nat` argument
  and `uuid.uuid4()` by an explicit `newId : String` argument.
* `random.choice(xs)` is modelled by an explicit index seed `k : Nat`
  reduced modulo the length of `xs`: a uniformly distributed residue of
  `k` selects every list position with equal probability.
* The Python `float` field `volume` is modelled as `Rat`: the handlers
  only store and copy the value, no floating-point arithmetic occurs.
* `raise HTTPException(404, detail)` is the error side of `Except`;
  an unhandled exception (HTTP 500) is `ApiError.fault`.
* Python truthiness matters twice: `if folder_path:` and
  `if folder_paths:` treat the empty string like an absent argument, and
  `{k: v for k, v in u.dict().items() if v is not None}` keeps every
  field that is present and non-null, including falsy values such as
  `[]`, `false` and `0.0`.
-/

namespace MusicPlayerApi

structure StatusCheck where
  id : String
  client_name : String
  timestamp : Nat
deriving Repr, DecidableEq

structure Song where
  id : String
  title : String
  artist : String
  album : String
  duration : Int
  file_path : String
  folder_path : String
  artwork : Option String
  format : String
  size : Int
  added_date : Nat
deriving Repr, DecidableEq

structure Favorite where
  id : String
  song_id : String
  added_date : Nat
deriving Repr, DecidableEq

structure FavoriteCreate where
  song_id : String
deriving Repr, DecidableEq

structure Playlist where
  id : String
  name : String
  song_ids : List String
  created_date : Nat
  updated_date : Nat
deriving Repr, DecidableEq

structure PlaylistUpdate where
  name : Option String
  song_ids : Option (List String)
deriving Repr, DecidableEq

structure UserSettings where
  id : String
  selected_folders : List String
  shuffle_mode : Bool
  repeat_mode : String
  volume : Rat
  equalizer_preset : String
  updated_date : Nat
deriving Repr, DecidableEq

structure UserSettingsUpdate where
  selected_folders : Option (List String)
  shuffle_mode : Option Bool
  repeat_mode : Option String
  volume : Option Rat
  equalizer_preset : Option String
deriving Repr, DecidableEq

structure PlayHistory where
  id : String
  song_id : String
  played_date : Nat
  play_duration : Int
deriving Repr, DecidableEq

structure Store where
  songs : List Song
  favorites : List Favorite
  playlists : List Playlist
  settings : List UserSettings
  play_history : List PlayHistory
  status_checks : List StatusCheck
deriving Repr, DecidableEq

inductive ApiError where
  | notFound (detail : String)
  | fault
deriving Repr, DecidableEq

/-- Rewrite the first element satisfying `p` in place, as Mongo
`update_one` does on the first document matching the query. -/
def setFirst (p : α → Bool) (f : α → α) : List α → List α
  | [] => []
  | x :: xs => if p x then f x :: xs else x :: setFirst p f xs

/-- The UserSettings default factories: `UserSettings()` with no
arguments, lines 86 to 93 of server.py. -/
def defaultUserSettings (newId : String) (now : Nat) : UserSettings :=
  { id := newId
    selected_folders := []
    shuffle_mode := true
    repeat_mode := "none"
    volume := 1
    equalizer_preset := "normal"
    updated_date := now }

/-- GET /songs, lines 133 to 139: `if folder_path:` adds the exact-match
query only for a truthy (non-empty) value; the read is capped at 1000
documents by `to_list(1000)`. -/
def get_songs (folder_path : Option String) (s : Store) : List Song :=
  let matched :=
    match folder_path with
    | none => s.songs
    | some fp =>
        if fp = "" then s.songs
        else s.songs.filter (fun song => song.folder_path == fp)
  matched.take 1000

/-- The candidate list built by GET /songs/random, lines 146 to 152:
`if folder_paths:` installs an `$in` query over the comma-split entries
only for a truthy (non-empty) argument. -/
def randomCandidates (folder_paths : Option String) (s : Store) : List Song :=
  match folder_paths with
  | none => s.songs
  | some fps =>
      if fps = "" then s.songs
      else s.songs.filter (fun song => (fps.splitOn ",").contains song.folder_path)

/-- GET /songs/random, lines 142 to 162: 404 when no candidate matches,
otherwise `random.choice` over the (at most 1000) retrieved candidates,
modelled by the index seed `k`. -/
def get_random_song (k : Nat) (folder_paths : Option String) (s : Store) :
    Except ApiError Song :=
  let all_songs := (randomCandidates folder_paths s).take 1000
  match all_songs with
  | [] => .error (.notFound "No songs found")
  | x :: xs => .ok ((x :: xs).getD (k % (x :: xs).length) x)

/-- GET /songs/_song_id_, lines 164 to 169. -/
def get_song (song_id : String) (s : Store) : Except ApiError Song :=
  match s.songs.find? (fun song => song.id == song_id) with
  | none => .error (.notFound "Song not found")
  | some song => .ok song

/-- DELETE /songs, lines 178 to 181: `delete_many` with the empty query,
always acknowledged. -/
def clear_all_songs (s : Store) : String × Store :=
  ("All songs cleared", { s with songs := [] })

/-- POST /favorites, lines 184 to 199: 404 unless the song exists,
idempotent when a favorite for the song is already stored, otherwise a
fresh record is inserted. -/
def add_favorite (newId : String) (now : Nat) (favorite : FavoriteCreate)
    (s : Store) : Except ApiError (Favorite × Store) :=
  match s.songs.find? (fun song => song.id == favorite.song_id) with
  | none => .error (.notFound "Song not found")
  | some _ =>
      match s.favorites.find? (fun f => f.song_id == favorite.song_id) with
      | some existing => .ok (existing, s)
      | none =>
          let favorite_obj : Favorite :=
            { id := newId, song_id := favorite.song_id, added_date := now }
          .ok (favorite_obj, { s with favorites := s.favorites ++ [favorite_obj] })

/-- The `$set` document of update_playlist, lines 239 to 240: every
non-null field of the update plus a fresh updated_date, merged over the
stored document. -/
def mergePlaylist (now : Nat) (u : PlaylistUpdate) (p : Playlist) : Playlist :=
  { p with
    name := u.name.getD p.name
    song_ids := u.song_ids.getD p.song_ids
    updated_date := now }

/-- PUT /playlists/_playlist_id_, lines 233 to 244: 404 when the id is
absent, otherwise `update_one` applies the merge to the first matching
document and the handler returns the re-read document. -/
def update_playlist (now : Nat) (playlist_id : String) (u : PlaylistUpdate)
    (s : Store) : Except ApiError (Playlist × Store) :=
  match s.playlists.find? (fun p => p.id == playlist_id) with
  | none => .error (.notFound "Playlist not found")
  | some _ =>
      let updated := setFirst (fun p => p.id == playlist_id) (mergePlaylist now u) s.playlists
      match updated.find? (fun p => p.id == playlist_id) with
      | none => .error .fault
      | some merged => .ok (merged, { s with playlists := updated })

/-- GET /settings, lines 254 to 262: `find_one` with the empty query is
the first stored document; when none exists a default document is
created, persisted and returned. -/
def get_settings (newId : String) (now : Nat) (s : Store) :
    UserSettings × Store :=
  match s.settings.head? with
  | none =>
      let default_settings := defaultUserSettings newId now
      (default_settings, { s with settings := s.settings ++ [default_settings] })
  | some settings => (settings, s)

/-- `UserSettings(**update_dict)` in the create branch of
update_settings, line 270: provided non-null fields override the model
defaults; id and updated_date come from the default factories. -/
def seedUserSettings (newId : String) (now : Nat) (u : UserSettingsUpdate) :
    UserSettings :=
  { id := newId
    selected_folders := u.selected_folders.getD []
    shuffle_mode := u.shuffle_mode.getD true
    repeat_mode := u.repeat_mode.getD "none"
    volume := u.volume.getD 1
    equalizer_preset := u.equalizer_preset.getD "normal"
    updated_date := now }

/-- The `$set` document of update_settings, lines 274 to 275: every
non-null field of the update plus a fresh updated_date, merged over the
stored document. -/
def mergeUserSettings (now : Nat) (u : UserSettingsUpdate) (d : UserSettings) :
    UserSettings :=
  { d with
    selected_folders := u.selected_folders.getD d.selected_folders
    shuffle_mode := u.shuffle_mode.getD d.shuffle_mode
    repeat_mode := u.repeat_mode.getD d.repeat_mode
    volume := u.volume.getD d.volume
    equalizer_preset := u.equalizer_preset.getD d.equalizer_preset
    updated_date := now }

/-- PUT /settings, lines 264 to 279: with no stored document the update
seeds a fresh one; otherwise `update_one` merges the non-null fields
over the first document matching the id of the first stored document and
the handler returns the re-read result. -/
def update_settings (newId : String) (now : Nat) (u : UserSettingsUpdate)
    (s : Store) : Except ApiError (UserSettings × Store) :=
  match s.settings.head? with
  | none =>
      let new_settings := seedUserSettings newId now u
      .ok (new_settings, { s with settings := s.settings ++ [new_settings] })
  | some existing =>
      let updated := setFirst (fun d => d.id == existing.id) (mergeUserSettings now u) s.settings
      match updated.find? (fun d => d.id == existing.id) with
      | none => .error .fault
      | some merged => .ok (merged, { s with settings := updated })

/-! Routing.  FastAPI (via Starlette) tries the registered routes in
registration order and dispatches to the first whose path template
matches, a literal segment matching only itself and a parameter segment
matching any segment. -/

inductive Method where
  | get
  | post
  | put
  | delete
deriving Repr, DecidableEq

inductive Seg where
  | lit (s : String)
  | capture (name : String)
deriving Repr, DecidableEq

inductive Handler where
  | root
  | create_status_check
  | get_status_checks
  | add_song
  | get_songs
  | get_random_song
  | get_song
  | delete_song
  | clear_all_songs
  | add_favorite
  | get_favorites
  | remove_favorite
  | create_playlist
  | get_playlists
  | get_playlist
  | update_playlist
  | delete_playlist
  | get_settings
  | update_settings
  | add_play_history
  | get_play_history
  | get_random_song_dup
deriving Repr, DecidableEq

structure Route where
  method : Method
  segs : List Seg
  handler : Handler
deriving Repr, DecidableEq

def segMatches : Seg → String → Bool
  | .lit s, t => s == t
  | .capture _, _ => true

def pathMatches : List Seg → List String → Bool
  | [], [] => true
  | sg :: sgs, t :: ts => segMatches sg t && pathMatches sgs ts
  | [], _ :: _ => false
  | _ :: _, [] => false

/-- The api_router routes in registration order, lines 109 to 314 of
server.py, including the second registration of GET /songs/random at
line 294.  The uniform /api prefix is elided. -/
def routes : List Route :=
  [ { method := .get, segs := [], handler := .root }
  , { method := .post, segs := [.lit "status"], handler := .create_status_check }
  , { method := .get, segs := [.lit "status"], handler := .get_status_checks }
  , { method := .post, segs := [.lit "songs"], handler := .add_song }
  , { method := .get, segs := [.lit "songs"], handler := .get_songs }
  , { method := .get, segs := [.lit "songs", .lit "random"], handler := .get_random_song }
  , { method := .get, segs := [.lit "songs", .capture "song_id"], handler := .get_song }
  , { method := .delete, segs := [.lit "songs", .capture "song_id"], handler := .delete_song }
  , { method := .delete, segs := [.lit "songs"], handler := .clear_all_songs }
  , { method := .post, segs := [.lit "favorites"], handler := .add_favorite }
  , { method := .get, segs := [.lit "favorites"], handler := .get_favorites }
  , { method := .delete, segs := [.lit "favorites", .capture "song_id"], handler := .remove_favorite }
  , { method := .post, segs := [.lit "playlists"], handler := .create_playlist }
  , { method := .get, segs := [.lit "playlists"], handler := .get_playlists }
  , { method := .get, segs := [.lit "playlists", .capture "playlist_id"], handler := .get_playlist }
  , { method := .put, segs := [.lit "playlists", .capture "playlist_id"], handler := .update_playlist }
  , { method := .delete, segs := [.lit "playlists", .capture "playlist_id"], handler := .delete_playlist }
  , { method := .get, segs := [.lit "settings"], handler := .get_settings }
  , { method := .put, segs := [.lit "settings"], handler := .update_settings }
  , { method := .post, segs := [.lit "history"], handler := .add_play_history }
  , { method := .get, segs := [.lit "history"], handler := .get_play_history }
  , { method := .get, segs := [.lit "songs", .lit "random"], handler := .get_random_song_dup } ]

/-- First-match dispatch over the registered routes. -/
def dispatch (m : Method) (path : List String) : Option Handler :=
  (routes.find? (fun r => r.method == m && pathMatches r.segs path)).map Route.handler

/-! Concrete sample data for witnesses and counterexamples. -/

def songA : Song :=
  { id := "s1", title := "A", artist := "", album := "", duration := 180
    file_path := "/m/a.mp3", folder_path := "a", artwork := none
    format := "mp3", size := 10, added_date := 0 }

def songB : Song :=
  { id := "s2", title := "B", artist := "", album := "", duration := 200
    file_path := "/m/b.mp3", folder_path := "b", artwork := none
    format := "mp3", size := 11, added_date := 0 }

def playlistP : Playlist :=
  { id := "p1", name := "P", song_ids := ["s1"], created_date := 1, updated_date := 1 }

def settingsD : UserSettings :=
  { id := "u1", selected_folders := ["a"], shuffle_mode := true
    repeat_mode := "all", volume := 1, equalizer_preset := "rock"
    updated_date := 2 }

def favF : Favorite := { id := "f1", song_id := "s1", added_date := 3 }

def emptyStore : Store :=
  { songs := [], favorites := [], playlists := [], settings := []
    play_history := [], status_checks := [] }

def storeA : Store := { emptyStore with songs := [songA] }

def storeFull : Store :=
  { songs := [songA, songB], favorites := [favF], playlists := [playlistP]
    settings := [settingsD], play_history := [], status_checks := [] }

/-- A store holding 1001 songs, one more than the 1000-document read
cap of `to_list(1000)`: 1000 copies of songA followed by songB, so
songB sits past the cap. -/
def bigStore : Store :=
  { emptyStore with songs := List.replicate 1000 songA ++ [songB] }

/-! Helper lemmas shared by the claim theorems. -/

theorem setFirst_nil (p : α → Bool) (f : α → α) : setFirst p f [] = [] := rfl

theorem setFirst_find? (p : α → Bool) (f : α → α)
    (hf : ∀ a, p a = true → p (f a) = true) :
    ∀ (l : List α) (a : α), l.find? p = some a →
      (setFirst p f l).find? p = some (f a) := by
  intro l
  induction l with
  | nil => intro a h; simp [List.find?] at h
  | cons x xs ih =>
      intro a h
      by_cases hx : p x = true
      · simp [List.find?, hx] at h
        subst h
        simp [setFirst, hx, List.find?, hf x hx]
      · simp [List.find?, hx] at h
        simpa [setFirst, hx, List.find?] using ih a h

theorem getD_eq_get (l : List α) (i : Nat) (h : i < l.length) (d : α) :
    l.getD i d = l.get ⟨i, h⟩ := by
  simp [List.getD, List.getElem?_eq_getElem h]

theorem randomCandidates_length_le (fp : Option String) (s : Store)
    (h : s.songs.length ≤ 1000) : (randomCandidates fp s).length ≤ 1000 := by
  cases fp with
  | none => exact h
  | some fps =>
      by_cases hf : fps = ""
      · simpa [randomCandidates, hf] using h
      · simpa [randomCandidates, hf] using
          le_trans (List.length_filter_le _ _) h

theorem get_random_song_of_nil (k : Nat) (fp : Option String) (s : Store)
    (h : randomCandidates fp s = []) :
    get_random_song k fp s = .error (.notFound "No songs found") := by
  simp [get_random_song, h]

theorem get_random_song_of_cons (k : Nat) (fp : Option String) (s : Store)
    (x : Song) (xs : List Song) (hlen : s.songs.length ≤ 1000)
    (h : randomCandidates fp s = x :: xs) :
    get_random_song k fp s = .ok ((x :: xs).getD (k % (x :: xs).length) x) := by
  have hcand : (randomCandidates fp s).length ≤ 1000 :=
    randomCandidates_length_le fp s hlen
  rw [h] at hcand
  simp [get_random_song, h, List.take_of_length_le hcand]

theorem get_random_song_mem_take (k : Nat) (fp : Option String) (s : Store)
    (song : Song) (h : get_random_song k fp s = .ok song) :
    song ∈ (randomCandidates fp s).take 1000 := by
  simp only [get_random_song] at h
  rcases hc : (randomCandidates fp s).take 1000 with _ | ⟨x, xs⟩
  · rw [hc] at h
    cases h
  · rw [hc] at h
    have hklt : k % (x :: xs).length < (x :: xs).length :=
      Nat.mod_lt _ (by simp)
    have h2 : (Except.ok ((x :: xs).getD (k % (x :: xs).length) x) :
        Except ApiError Song) = Except.ok song := h
    have h3 := Except.ok.inj h2
    rw [getD_eq_get _ _ hklt] at h3
    rw [← h3]
    exact List.get_mem _ _ _

theorem bigStore_songs_take :
    bigStore.songs.take 1000 = List.replicate 1000 songA :=
  List.take_left' (List.length_replicate 1000 songA)

theorem songB_mem_bigStore : songB ∈ bigStore.songs :=
  List.mem_append_right _ (by simp)

/-- C1: a GET request for path /songs/random reaches the random-song
handler registered first; every other literal id still reaches the
single-song-by-id handler, so the static route out-ranks the
parameterized one. -/
theorem c1_static_random_route_precedes_parameterized :
    dispatch .get ["songs", "random"] = some .get_random_song ∧
    ∀ sid : String, sid ≠ "random" →
      dispatch .get ["songs", sid] = some .get_song := by
  refine ⟨by decide, fun sid h => ?_⟩
  have hb : (("random" : String) == sid) = false :=
    beq_eq_false_iff_ne.mpr (Ne.symm h)
  simp [dispatch, routes, List.find?, pathMatches, segMatches, hb]

/-- C1 witness: the hypotheses of the second conjunct are satisfiable,
for example at the literal id s1. -/
theorem c1_witness :
    dispatch .get ["songs", "random"] = some .get_random_song ∧
    dispatch .get ["songs", "s1"] = some .get_song :=
  ⟨c1_static_random_route_precedes_parameterized.1,
   c1_static_random_route_precedes_parameterized.2 "s1" (by decide)⟩

/-- C10: Clear All Songs always succeeds with an acknowledgement,
empties the songs collection, and leaves favorites, playlists, settings,
play history and status checks exactly as before. -/
theorem c10_clear_all_songs_frame (s : Store) :
    (clear_all_songs s).2.songs = [] ∧
    (clear_all_songs s).2.favorites = s.favorites ∧
    (clear_all_songs s).2.playlists = s.playlists ∧
    (clear_all_songs s).2.settings = s.settings ∧
    (clear_all_songs s).2.play_history = s.play_history ∧
    (clear_all_songs s).2.status_checks = s.status_checks ∧
    (clear_all_songs s).1 = "All songs cleared" :=
  ⟨rfl, rfl, rfl, rfl, rfl, rfl, rfl⟩

/-- C2 counterexample: on a store of 1001 songs the unfiltered
candidate set contains songB, yet no random seed ever returns songB,
because `to_list(1000)` hands `random.choice` only the first 1000
candidates; so the selection is not uniform over the exact candidate
set on every store state. -/
theorem c2_counterexample_read_cap :
    songB ∈ randomCandidates none bigStore ∧
    ∀ j, get_random_song j none bigStore ≠ .ok songB := by
  refine ⟨songB_mem_bigStore, fun j hok => ?_⟩
  have hmem := get_random_song_mem_take j none bigStore songB hok
  rw [show randomCandidates none bigStore = bigStore.songs from rfl,
    bigStore_songs_take] at hmem
  exact absurd (List.eq_of_mem_replicate hmem) (by decide)

/-- C2 amended: Get Random Song fails with NotFound exactly when the
candidate list is empty (all songs when folder_paths is absent or
empty, otherwise the songs whose folder_path matches one of the
comma-split entries); a successful call returns a candidate, the seed i
returns the candidate at position i, so a uniformly distributed seed
picks every position with equal probability, and every candidate is
returned under some seed — all for stores within the 1000-document read
cap, beyond which only the first 1000 candidates are eligible. -/
theorem c2_random_song_contract (k : Nat) (fp : Option String) (s : Store)
    (h : s.songs.length ≤ 1000) :
    (get_random_song k fp s = .error (.notFound "No songs found") ↔
      randomCandidates fp s = []) ∧
    (∀ song, get_random_song k fp s = .ok song →
      song ∈ randomCandidates fp s) ∧
    (∀ i song, (randomCandidates fp s)[i]? = some song →
      get_random_song i fp s = .ok song) ∧
    (∀ song ∈ randomCandidates fp s, ∃ j,
      get_random_song j fp s = .ok song) := by
  have h3 : ∀ i song, (randomCandidates fp s)[i]? = some song →
      get_random_song i fp s = .ok song := by
    intro i song hsome
    rcases hc : randomCandidates fp s with _ | ⟨x, xs⟩
    · rw [hc] at hsome
      simp at hsome
    · rw [hc] at hsome
      obtain ⟨hlt, hgetelem⟩ := List.getElem?_eq_some.mp hsome
      rw [get_random_song_of_cons i fp s x xs h hc, Nat.mod_eq_of_lt hlt,
        getD_eq_get _ i hlt]
      simp [List.get_eq_getElem, hgetelem]
  refine ⟨?_, ?_, h3, ?_⟩
  · rcases hc : randomCandidates fp s with _ | ⟨x, xs⟩
    · simp [get_random_song_of_nil k fp s hc]
    · rw [get_random_song_of_cons k fp s x xs h hc]
      simp
  · intro song hok
    rcases hc : randomCandidates fp s with _ | ⟨x, xs⟩
    · rw [get_random_song_of_nil k fp s hc] at hok
      cases hok
    · rw [get_random_song_of_cons k fp s x xs h hc] at hok
      have hklt : k % (x :: xs).length < (x :: xs).length :=
        Nat.mod_lt _ (by simp)
      rw [getD_eq_get _ _ hklt] at hok
      have hg : (x :: xs).get ⟨k % (x :: xs).length, hklt⟩ = song := by
        simpa using hok
      rw [← hg]
      exact List.get_mem _ _ _
  · intro song hmem
    obtain ⟨i, hi, hg⟩ := List.mem_iff_getElem.mp hmem
    exact ⟨i, h3 i song (by simp [List.getElem?_eq_getElem hi, hg])⟩

/-- C2 witness: on a one-song store with no filter, seed 0 returns the
single candidate; on the empty store the call fails with NotFound. -/
theorem c2_witness :
    get_random_song 0 none storeA = .ok songA ∧
    (get_random_song 0 (some "a") emptyStore =
      .error (.notFound "No songs found") ↔
      randomCandidates (some "a") emptyStore = []) :=
  ⟨(c2_random_song_contract 0 none storeA (by decide)).2.2.1 0 songA
      (by decide),
   (c2_random_song_contract 0 (some "a") emptyStore (by decide)).1⟩

/-- C7 counterexample: the claim fails in two ways.  The empty-string
filter is a supplied folder_path value, yet List Songs returns songA
whose folder_path "a" differs from it; and on a store of 1001 songs the
unfiltered listing misses the stored songB, because the read stops at
1000 documents, so it does not return all stored songs on every store
state. -/
theorem c7_counterexample_filter_and_cap :
    (get_songs (some "") storeA = [songA] ∧ songA.folder_path ≠ "") ∧
    (songB ∈ bigStore.songs ∧ songB ∉ get_songs none bigStore) := by
  refine ⟨by decide, songB_mem_bigStore, fun hmem => ?_⟩
  have hred : get_songs none bigStore = List.replicate 1000 songA := by
    rw [show get_songs none bigStore = bigStore.songs.take 1000 from rfl,
      bigStore_songs_take]
  rw [hred] at hmem
  exact absurd (List.eq_of_mem_replicate hmem) (by decide)

/-- C7 amended: for stores holding at most 1000 songs (the read cap of
the handler), List Songs with no filter or with the empty-string filter
returns all stored songs, and with a non-empty folder_path filter
returns exactly the stored songs whose folder_path equals the filter
value. -/
theorem c7_list_songs_exact_filter (fp : String) (s : Store)
    (h : s.songs.length ≤ 1000) :
    get_songs none s = s.songs ∧
    get_songs (some "") s = s.songs ∧
    (fp ≠ "" →
      get_songs (some fp) s =
        s.songs.filter (fun song => song.folder_path == fp) ∧
      ∀ song, song ∈ get_songs (some fp) s ↔
        song ∈ s.songs ∧ song.folder_path = fp) := by
  refine ⟨?_, ?_, fun hfp => ?_⟩
  · simpa [get_songs] using List.take_of_length_le h
  · simpa [get_songs] using List.take_of_length_le h
  · have hlen : (s.songs.filter (fun song => song.folder_path == fp)).length ≤ 1000 :=
      le_trans (List.length_filter_le _ _) h
    have he : get_songs (some fp) s =
        s.songs.filter (fun song => song.folder_path == fp) := by
      simp [get_songs, hfp, List.take_of_length_le hlen]
    refine ⟨he, fun song => ?_⟩
    rw [he]
    simp [List.mem_filter]

/-- C7 witness: the amended statement evaluated on a concrete two-song
store with the non-empty filter b. -/
theorem c7_witness :
    get_songs none storeFull = storeFull.songs ∧
    get_songs (some "b") storeFull =
      storeFull.songs.filter (fun song => song.folder_path == "b") :=
  ⟨(c7_list_songs_exact_filter "b" storeFull (by decide)).1,
   ((c7_list_songs_exact_filter "b" storeFull (by decide)).2.2
      (by decide)).1⟩

/-- C9 counterexample: with the empty-string filter on a store of 1001
songs, List Songs misses the stored songB, because the read stops at
1000 documents; so the call does not return all stored songs on every
store state. -/
theorem c9_counterexample_read_cap :
    songB ∈ bigStore.songs ∧ songB ∉ get_songs (some "") bigStore := by
  refine ⟨songB_mem_bigStore, fun hmem => ?_⟩
  have hred : get_songs (some "") bigStore = List.replicate 1000 songA := by
    rw [show get_songs (some "") bigStore = bigStore.songs.take 1000 from rfl,
      bigStore_songs_take]
  rw [hred] at hmem
  exact absurd (List.eq_of_mem_replicate hmem) (by decide)

/-- C9 amended: the empty-string folder_path behaves exactly like an
absent filter: the result coincides with the unfiltered call and, for a
store within the 1000-document read cap, is the full song list
including songs with non-empty folder_path; only a non-empty filter
value excludes songs. -/
theorem c9_empty_filter_means_no_filter (fp : String) (s : Store)
    (h : s.songs.length ≤ 1000) :
    get_songs (some "") s = get_songs none s ∧
    get_songs (some "") s = s.songs ∧
    (fp ≠ "" → ∀ song ∈ s.songs, song.folder_path ≠ fp →
      song ∉ get_songs (some fp) s) := by
  refine ⟨by simp [get_songs], ?_, fun hfp song _ hne => ?_⟩
  · simpa [get_songs] using List.take_of_length_le h
  · have hlen : (s.songs.filter (fun song => song.folder_path == fp)).length ≤ 1000 :=
      le_trans (List.length_filter_le _ _) h
    simp [get_songs, hfp, List.take_of_length_le hlen, List.mem_filter]
    intro _
    exact hne

/-- C9 witness: on the one-song store whose song lives in folder a, the
empty filter equals the unfiltered listing and returns the song, while
the non-empty filter b excludes it. -/
theorem c9_witness :
    get_songs (some "") storeA = get_songs none storeA ∧
    get_songs (some "") storeA = storeA.songs ∧
    songA ∉ get_songs (some "b") storeA :=
  ⟨(c9_empty_filter_means_no_filter "b" storeA (by decide)).1,
   (c9_empty_filter_means_no_filter "b" storeA (by decide)).2.1,
   (c9_empty_filter_means_no_filter "b" storeA (by decide)).2.2
      (by decide) songA (by decide) (by decide)⟩

theorem update_playlist_of_find?_none (now : Nat) (pid : String)
    (u : PlaylistUpdate) (s : Store)
    (hp : s.playlists.find? (fun q => q.id == pid) = none) :
    update_playlist now pid u s = .error (.notFound "Playlist not found") := by
  simp [update_playlist, hp]

theorem update_playlist_of_find?_some (now : Nat) (pid : String)
    (u : PlaylistUpdate) (s : Store) (p : Playlist)
    (hp : s.playlists.find? (fun q => q.id == pid) = some p) :
    update_playlist now pid u s =
      .ok (mergePlaylist now u p,
        { s with playlists :=
            setFirst (fun q => q.id == pid) (mergePlaylist now u) s.playlists }) := by
  have hfind := setFirst_find? (fun q => q.id == pid) (mergePlaylist now u)
    (fun a ha => ha) s.playlists p hp
  simp [update_playlist, hp, hfind]

/-- C3: Update Playlist fails with NotFound exactly when no stored
playlist carries the id; otherwise the first matching playlist is
replaced in place by a merge that keeps id and created_date, overwrites
exactly the fields present in the update (a missing name leaves name
untouched, a missing song_ids leaves song_ids untouched), refreshes
updated_date, and the merged document is both returned and stored. -/
theorem c3_update_playlist_partial_merge (now : Nat) (pid : String)
    (u : PlaylistUpdate) (s : Store) :
    (update_playlist now pid u s = .error (.notFound "Playlist not found") ↔
      ∀ q ∈ s.playlists, q.id ≠ pid) ∧
    (∀ p, s.playlists.find? (fun q => q.id == pid) = some p →
      update_playlist now pid u s =
        .ok (mergePlaylist now u p,
          { s with playlists :=
              setFirst (fun q => q.id == pid) (mergePlaylist now u) s.playlists }) ∧
      (mergePlaylist now u p).id = p.id ∧
      (mergePlaylist now u p).created_date = p.created_date ∧
      (mergePlaylist now u p).updated_date = now ∧
      (u.name = none → (mergePlaylist now u p).name = p.name) ∧
      (∀ nm, u.name = some nm → (mergePlaylist now u p).name = nm) ∧
      (u.song_ids = none → (mergePlaylist now u p).song_ids = p.song_ids) ∧
      (∀ ids, u.song_ids = some ids → (mergePlaylist now u p).song_ids = ids)) := by
  constructor
  · constructor
    · intro herr
      rcases hp : s.playlists.find? (fun q => q.id == pid) with _ | p
      · intro q hq hqid
        have := List.find?_eq_none.mp hp q hq
        simp [hqid] at this
      · rw [update_playlist_of_find?_some now pid u s p hp] at herr
        cases herr
    · intro hall
      apply update_playlist_of_find?_none
      rw [List.find?_eq_none]
      intro q hq
      simp [hall q hq]
  · intro p hp
    refine ⟨update_playlist_of_find?_some now pid u s p hp, rfl, rfl, rfl,
      ?_, ?_, ?_, ?_⟩
    · intro hn; simp [mergePlaylist, hn]
    · intro nm hn; simp [mergePlaylist, hn]
    · intro hi; simp [mergePlaylist, hi]
    · intro ids hi; simp [mergePlaylist, hi]

/-- C3 witness: updating the stored playlist p1 with only a new name
keeps the song list, refreshes the timestamp and stores the merge. -/
theorem c3_witness :
    update_playlist 9 "p1" { name := some "Q", song_ids := none } storeFull =
      .ok (mergePlaylist 9 { name := some "Q", song_ids := none } playlistP,
        { storeFull with playlists := setFirst (fun q => q.id == "p1") (mergePlaylist 9 { name := some "Q", song_ids := none }) storeFull.playlists }) ∧
    (mergePlaylist 9 { name := some "Q", song_ids := none } playlistP).name = "Q" ∧
    (mergePlaylist 9 { name := some "Q", song_ids := none } playlistP).song_ids =
      playlistP.song_ids ∧
    (mergePlaylist 9 { name := some "Q", song_ids := none } playlistP).updated_date = 9 := by
  obtain ⟨h1, -, -, h4, -, h6, h7, -⟩ :=
    (c3_update_playlist_partial_merge 9 "p1"
      { name := some "Q", song_ids := none } storeFull).2 playlistP (by decide)
  exact ⟨h1, h6 "Q" rfl, h7 rfl, h4⟩

theorem update_settings_of_nil (newId : String) (now : Nat)
    (u : UserSettingsUpdate) (s : Store) (h : s.settings = []) :
    update_settings newId now u s =
      .ok (seedUserSettings newId now u,
        { s with settings := [seedUserSettings newId now u] }) := by
  simp [update_settings, h]

theorem update_settings_of_cons (newId : String) (now : Nat)
    (u : UserSettingsUpdate) (s : Store) (d : UserSettings)
    (ds : List UserSettings) (h : s.settings = d :: ds) :
    update_settings newId now u s =
      .ok (mergeUserSettings now u d,
        { s with settings := mergeUserSettings now u d :: ds }) := by
  have hid : ((mergeUserSettings now u d).id == d.id) = true := by
    simp [mergeUserSettings]
  simp [update_settings, h, setFirst, List.find?, hid]

/-- C4: Update Settings with no stored document creates one seeded from
the provided fields, absent fields taking the model defaults; with a
stored document it merges exactly the provided fields over the first
document, keeps its id, refreshes updated_date and stores the merge; in
both branches the resulting document is returned. -/
theorem c4_update_settings_two_branches (newId : String) (now : Nat)
    (u : UserSettingsUpdate) (s : Store) :
    (s.settings = [] →
      update_settings newId now u s =
        .ok (seedUserSettings newId now u,
          { s with settings := [seedUserSettings newId now u] }) ∧
      (seedUserSettings newId now u).selected_folders = u.selected_folders.getD [] ∧
      (seedUserSettings newId now u).shuffle_mode = u.shuffle_mode.getD true ∧
      (seedUserSettings newId now u).repeat_mode = u.repeat_mode.getD "none" ∧
      (seedUserSettings newId now u).volume = u.volume.getD 1 ∧
      (seedUserSettings newId now u).equalizer_preset = u.equalizer_preset.getD "normal" ∧
      (seedUserSettings newId now u).updated_date = now) ∧
    (∀ d ds, s.settings = d :: ds →
      update_settings newId now u s =
        .ok (mergeUserSettings now u d,
          { s with settings := mergeUserSettings now u d :: ds }) ∧
      (mergeUserSettings now u d).id = d.id ∧
      (mergeUserSettings now u d).updated_date = now ∧
      (u.selected_folders = none →
        (mergeUserSettings now u d).selected_folders = d.selected_folders) ∧
      (∀ v, u.selected_folders = some v →
        (mergeUserSettings now u d).selected_folders = v) ∧
      (u.shuffle_mode = none →
        (mergeUserSettings now u d).shuffle_mode = d.shuffle_mode) ∧
      (∀ v, u.shuffle_mode = some v →
        (mergeUserSettings now u d).shuffle_mode = v) ∧
      (u.repeat_mode = none →
        (mergeUserSettings now u d).repeat_mode = d.repeat_mode) ∧
      (∀ v, u.repeat_mode = some v →
        (mergeUserSettings now u d).repeat_mode = v) ∧
      (u.volume = none → (mergeUserSettings now u d).volume = d.volume) ∧
      (∀ v, u.volume = some v → (mergeUserSettings now u d).volume = v) ∧
      (u.equalizer_preset = none →
        (mergeUserSettings now u d).equalizer_preset = d.equalizer_preset) ∧
      (∀ v, u.equalizer_preset = some v →
        (mergeUserSettings now u d).equalizer_preset = v)) := by
  constructor
  · intro h
    refine ⟨update_settings_of_nil newId now u s h, rfl, rfl, rfl, rfl, rfl, rfl⟩
  · intro d ds h
    refine ⟨update_settings_of_cons newId now u s d ds h, rfl, rfl,
      ?_, ?_, ?_, ?_, ?_, ?_, ?_, ?_, ?_, ?_⟩
    all_goals first
      | (intro hv; simp [mergeUserSettings, hv])
      | (intro v hv; simp [mergeUserSettings, hv])

/-- C4 witness: a volume-only update merged over the stored document of
storeFull, and the same update seeding a fresh document on the empty
store. -/
theorem c4_witness :
    update_settings "u9" 9
        { selected_folders := none, shuffle_mode := none
          repeat_mode := none, volume := some (1/2), equalizer_preset := none }
        emptyStore =
      .ok (seedUserSettings "u9" 9
          { selected_folders := none, shuffle_mode := none
            repeat_mode := none, volume := some (1/2), equalizer_preset := none },
        { emptyStore with settings := [seedUserSettings "u9" 9
          { selected_folders := none, shuffle_mode := none
            repeat_mode := none, volume := some (1/2), equalizer_preset := none }] }) ∧
    update_settings "u9" 9
        { selected_folders := none, shuffle_mode := none
          repeat_mode := none, volume := some (1/2), equalizer_preset := none }
        storeFull =
      .ok (mergeUserSettings 9
          { selected_folders := none, shuffle_mode := none
            repeat_mode := none, volume := some (1/2), equalizer_preset := none }
          settingsD,
        { storeFull with settings := [mergeUserSettings 9
          { selected_folders := none, shuffle_mode := none
            repeat_mode := none, volume := some (1/2), equalizer_preset := none }
          settingsD] }) :=
  ⟨((c4_update_settings_two_branches "u9" 9
      { selected_folders := none, shuffle_mode := none
        repeat_mode := none, volume := some (1/2), equalizer_preset := none }
      emptyStore).1 rfl).1,
   ((c4_update_settings_two_branches "u9" 9
      { selected_folders := none, shuffle_mode := none
        repeat_mode := none, volume := some (1/2), equalizer_preset := none }
      storeFull).2 settingsD [] rfl).1⟩

/-- C5: Get Settings on a store with no settings document creates,
persists and returns the default document (shuffle_mode true, volume 1,
repeat_mode none), and an immediately following Get Settings returns a
document with the identical id and leaves the store unchanged; on a
store that already holds a settings document it returns the first one
without modification. -/
theorem c5_get_settings_lazy_defaults (newId newId2 : String)
    (now now2 : Nat) (s : Store) :
    (s.settings = [] →
      (get_settings newId now s).1 = defaultUserSettings newId now ∧
      (get_settings newId now s).1.shuffle_mode = true ∧
      (get_settings newId now s).1.volume = 1 ∧
      (get_settings newId now s).1.repeat_mode = "none" ∧
      (get_settings newId now s).2.settings = [(get_settings newId now s).1] ∧
      (get_settings newId2 now2 (get_settings newId now s).2).1.id =
        (get_settings newId now s).1.id ∧
      (get_settings newId2 now2 (get_settings newId now s).2).2 =
        (get_settings newId now s).2) ∧
    (∀ d ds, s.settings = d :: ds → get_settings newId now s = (d, s)) := by
  constructor
  · intro h
    refine ⟨by simp [get_settings, h], by simp [get_settings, h, defaultUserSettings],
      by simp [get_settings, h, defaultUserSettings],
      by simp [get_settings, h, defaultUserSettings],
      by simp [get_settings, h], ?_, ?_⟩
    · simp [get_settings, h]
    · simp [get_settings, h]
  · intro d ds h
    simp [get_settings, h]

/-- C5 witness: the fresh store receives the defaults and the repeated
read returns the identical id; storeFull is returned untouched. -/
theorem c5_witness :
    (get_settings "u7" 4 emptyStore).1.shuffle_mode = true ∧
    (get_settings "u7" 4 emptyStore).1.volume = 1 ∧
    (get_settings "u7" 4 emptyStore).1.repeat_mode = "none" ∧
    (get_settings "u8" 5 (get_settings "u7" 4 emptyStore).2).1.id =
      (get_settings "u7" 4 emptyStore).1.id ∧
    get_settings "u7" 4 storeFull = (settingsD, storeFull) := by
  obtain ⟨-, h2, h3, h4, -, h6, -⟩ :=
    (c5_get_settings_lazy_defaults "u7" "u8" 4 5 emptyStore).1 rfl
  exact ⟨h2, h3, h4, h6,
    (c5_get_settings_lazy_defaults "u7" "u8" 4 5 storeFull).2 settingsD [] rfl⟩

/-- C6: Add Favorite fails with NotFound exactly when no stored song
carries the id; when a favorite for the song already exists the
existing record is returned and the store is left unchanged; otherwise
a fresh favorite is appended; consequently a successful add followed by
a second add returns the same favorite and the same store, and an add
on a store with no favorite for the song leaves exactly one entry for
it. -/
theorem c6_add_favorite_idempotent (newId newId2 : String) (now now2 : Nat)
    (sid : String) (s : Store) :
    (add_favorite newId now ⟨sid⟩ s = .error (.notFound "Song not found") ↔
      ∀ song ∈ s.songs, song.id ≠ sid) ∧
    (∀ f, s.favorites.find? (fun g => g.song_id == sid) = some f →
      (∃ song ∈ s.songs, song.id = sid) →
      add_favorite newId now ⟨sid⟩ s = .ok (f, s)) ∧
    ((∃ song ∈ s.songs, song.id = sid) →
      s.favorites.find? (fun g => g.song_id == sid) = none →
      add_favorite newId now ⟨sid⟩ s =
        .ok ({ id := newId, song_id := sid, added_date := now },
          { s with favorites := s.favorites ++ [{ id := newId, song_id := sid, added_date := now }] })) ∧
    (∀ f1 s1, add_favorite newId now ⟨sid⟩ s = .ok (f1, s1) →
      add_favorite newId2 now2 ⟨sid⟩ s1 = .ok (f1, s1)) ∧
    (∀ f1 s1, add_favorite newId now ⟨sid⟩ s = .ok (f1, s1) →
      (s.favorites.filter (fun g => g.song_id == sid)).length = 0 →
      (s1.favorites.filter (fun g => g.song_id == sid)).length = 1) := by
  have hsong? : (∃ song ∈ s.songs, song.id = sid) →
      ∃ song0, s.songs.find? (fun song => song.id == sid) = some song0 := by
    intro hex
    rcases hfs : s.songs.find? (fun song => song.id == sid) with _ | song0
    · obtain ⟨song, hmem, hid⟩ := hex
      have := List.find?_eq_none.mp hfs song hmem
      simp [hid] at this
    · exact ⟨song0, hfs⟩
  constructor
  · constructor
    · intro herr song hmem hid
      rcases hfs : s.songs.find? (fun song => song.id == sid) with _ | song0
      · have := List.find?_eq_none.mp hfs song hmem
        simp [hid] at this
      · rcases hff : s.favorites.find? (fun g => g.song_id == sid) with _ | f
        · simp [add_favorite, hfs, hff] at herr
        · simp [add_favorite, hfs, hff] at herr
    · intro hall
      have hfs : s.songs.find? (fun song => song.id == sid) = none := by
        rw [List.find?_eq_none]
        intro song hmem
        simp [hall song hmem]
      simp [add_favorite, hfs]
  refine ⟨?_, ?_, ?_, ?_⟩
  · intro f hff hex
    obtain ⟨song0, hfs⟩ := hsong? hex
    simp [add_favorite, hfs, hff]
  · intro hex hff
    obtain ⟨song0, hfs⟩ := hsong? hex
    simp [add_favorite, hfs, hff]
  · intro f1 s1 hok
    rcases hfs : s.songs.find? (fun song => song.id == sid) with _ | song0
    · simp [add_favorite, hfs] at hok
    · rcases hff : s.favorites.find? (fun g => g.song_id == sid) with _ | f
      · simp [add_favorite, hfs, hff] at hok
        obtain ⟨hf1, hs1⟩ := hok
        have hsongs1 : s1.songs = s.songs := by rw [← hs1]
        have hfs1 : s1.songs.find? (fun song => song.id == sid) = some song0 := by
          rw [hsongs1, hfs]
        have hff1 : s1.favorites.find? (fun g => g.song_id == sid) = some f1 := by
          have : s1.favorites = s.favorites ++ [f1] := by rw [← hs1, ← hf1]
          rw [this, List.find?_append, hff]
          simp [← hf1]
        simp [add_favorite, hfs1, hff1]
      · simp [add_favorite, hfs, hff] at hok
        obtain ⟨hf1, hs1⟩ := hok
        subst hf1
        subst hs1
        simp [add_favorite, hfs, hff]
  · intro f1 s1 hok hcount
    have hff : s.favorites.find? (fun g => g.song_id == sid) = none := by
      rw [List.find?_eq_none]
      intro g hmem hg
      have hnil : s.favorites.filter (fun g => g.song_id == sid) = [] :=
        List.length_eq_zero.mp hcount
      have : g ∈ s.favorites.filter (fun g => g.song_id == sid) :=
        List.mem_filter.mpr ⟨hmem, hg⟩
      rw [hnil] at this
      cases this
    rcases hfs : s.songs.find? (fun song => song.id == sid) with _ | song0
    · simp [add_favorite, hfs] at hok
    · simp [add_favorite, hfs, hff] at hok
      obtain ⟨hf1, hs1⟩ := hok
      have hnil : s.favorites.filter (fun g => g.song_id == sid) = [] :=
        List.length_eq_zero.mp hcount
      have : s1.favorites = s.favorites ++ [f1] := by rw [← hs1, ← hf1]
      rw [this, List.filter_append, hnil, ← hf1]
      simp

/-- C6 witness: storeA has song s1 and no favorites, so the add appends
a single favorite, and repeating it returns the identical record and
store. -/
theorem c6_witness :
    add_favorite "f9" 7 ⟨"s1"⟩ storeA =
      .ok ({ id := "f9", song_id := "s1", added_date := 7 },
        { storeA with favorites := storeA.favorites ++ [{ id := "f9", song_id := "s1", added_date := 7 }] }) ∧
    add_favorite "fX" 8 ⟨"s1"⟩
        { storeA with favorites := storeA.favorites ++ [{ id := "f9", song_id := "s1", added_date := 7 }] } =
      .ok ({ id := "f9", song_id := "s1", added_date := 7 },
        { storeA with favorites := storeA.favorites ++ [{ id := "f9", song_id := "s1", added_date := 7 }] }) := by
  have h1 := (c6_add_favorite_idempotent "f9" "fX" 7 8 "s1" storeA).2.2.1
    ⟨songA, by decide, by decide⟩ (by decide)
  exact ⟨h1, (c6_add_favorite_idempotent "f9" "fX" 7 8 "s1" storeA).2.2.2.1 _ _ h1⟩

/-- C8: in the two partial-update operations a null field is treated as
absent and does not overwrite the stored value, while an explicitly
supplied falsy value does: updating a playlist with a null name and an
empty song_ids list keeps the name and empties the list, and updating
settings with an empty selected_folders list, shuffle_mode false and
volume zero overwrites those three fields while the null fields keep
their stored values. -/
theorem c8_null_is_absent_falsy_overwrites (newId : String) (now : Nat)
    (pid : String) (s : Store) (p : Playlist) (d : UserSettings)
    (ds : List UserSettings)
    (hp : s.playlists.find? (fun q => q.id == pid) = some p)
    (hd : s.settings = d :: ds) :
    (∀ merged s2,
      update_playlist now pid { name := none, song_ids := some [] } s =
        .ok (merged, s2) →
      merged.name = p.name ∧ merged.song_ids = []) ∧
    (∀ merged s2,
      update_settings newId now
        { selected_folders := some [], shuffle_mode := some false
          repeat_mode := none, volume := some 0, equalizer_preset := none } s =
        .ok (merged, s2) →
      merged.selected_folders = [] ∧ merged.shuffle_mode = false ∧
      merged.volume = 0 ∧ merged.repeat_mode = d.repeat_mode ∧
      merged.equalizer_preset = d.equalizer_preset) := by
  constructor
  · intro merged s2 hok
    rw [update_playlist_of_find?_some now pid _ s p hp] at hok
    simp only [Except.ok.injEq, Prod.mk.injEq] at hok
    obtain ⟨hm, -⟩ := hok
    rw [← hm]
    exact ⟨by simp [mergePlaylist], by simp [mergePlaylist]⟩
  · intro merged s2 hok
    rw [update_settings_of_cons newId now _ s d ds hd] at hok
    simp only [Except.ok.injEq, Prod.mk.injEq] at hok
    obtain ⟨hm, -⟩ := hok
    rw [← hm]
    exact ⟨by simp [mergeUserSettings], by simp [mergeUserSettings],
      by simp [mergeUserSettings], by simp [mergeUserSettings],
      by simp [mergeUserSettings]⟩

/-- C8 witness: the hypotheses hold on storeFull, whose stored playlist
has name P and song list s1 and whose stored settings document has
repeat_mode all and equalizer_preset rock. -/
theorem c8_witness :
    (∀ merged s2,
      update_playlist 9 "p1" { name := none, song_ids := some [] } storeFull =
        .ok (merged, s2) →
      merged.name = playlistP.name ∧ merged.song_ids = []) ∧
    (∀ merged s2,
      update_settings "u9" 9
        { selected_folders := some [], shuffle_mode := some false
          repeat_mode := none, volume := some 0, equalizer_preset := none }
        storeFull =
        .ok (merged, s2) →
      merged.selected_folders = [] ∧ merged.shuffle_mode = false ∧
      merged.volume = 0 ∧ merged.repeat_mode = settingsD.repeat_mode ∧
      merged.equalizer_preset = settingsD.equalizer_preset) :=
  c8_null_is_absent_falsy_overwrites "u9" 9 "p1" storeFull playlistP
    settingsD [] (by decide) (by decide)

end MusicPlayerApi
